import Mathlib

/-!
Shallow embedding of the live-stream signaling server (`src/app/index.ts`):
the global `transports` and `producers` maps, the Socket.IO event handlers
(`disconnect`, `createWebRtcTransport`, `connectTransport`, `produce`),
the mediasoup-driven events (`dtlsstatechange`, `@close`, `transportclose`)
and the worker `died` handler.

The JS `Map`s are modelled as lists of entries in insertion order (JS `Map`
iteration order).  Ghost fields record facts the code itself does not store
but that the specification speaks about: which socket's request created a
transport (`owner`), which sockets are currently connected (`live`), which
engine-side transport actually produced a producer (`engineParent`), and
the log of `close()` calls issued to the engine (`closedT`, `closedP`).
The code never reads any ghost field.
-/

namespace LiveStreamServer

/-- Entry of the global `transports` map (a mediasoup `WebRtcTransport`).
`owner` is ghost state: the id of the socket whose `createWebRtcTransport`
request created it (the code records no such association).  `connected` is
the engine-side DTLS state, set by a successful `connectTransport`. -/
structure Transport where
  tid : String
  owner : String
  connected : Bool
  deriving DecidableEq, Repr

/-- Entry of the global `producers` map.  `transportId` is the field the
`produce` handler assigns (`producer.transportId = transportId` on the
`CustomProducer` extension); `engineParent` is ghost state: the id of the
transport on which `transport.produce(...)` was actually called. -/
structure Producer where
  pid : String
  transportId : String
  engineParent : String
  deriving DecidableEq, Repr

/-- The observable server state: the two global maps, plus ghost state.
`live` is the set of currently connected socket ids; `closedT` / `closedP`
log every `close()` call issued on a live transport / producer;
`pendingExit` is the delay (ms) of a scheduled `process.exit`, if any, and
`exited` records whether the process has exited. -/
structure ServerState where
  live : List String
  transports : List Transport
  producers : List Producer
  closedT : List String
  closedP : List String
  pendingExit : Option Nat
  exited : Bool
  deriving DecidableEq, Repr

/-- Result of an awaited call into the mediasoup engine: either a value or
a thrown error (whose message the handlers catch and surface). -/
inductive EngineResult (α : Type) where
  | ok (value : α)
  | fail (msg : String)
  deriving DecidableEq, Repr

/-- Acknowledgement payload passed to the Socket.IO callback: the
`{ params }`, `{ success: true }`, `{ id }` or `{ error }` object. -/
inductive Ack where
  | okParams (id : String)
  | okSuccess
  | okId (id : String)
  | err (msg : String)
  deriving DecidableEq, Repr

/-- Message of the error thrown for an unknown transport id, surfaced to
the caller as the `{ error }` payload. -/
def notFoundMsg (tid : String) : String :=
  "Transport not found [id: " ++ tid ++ "]"

/-- The pre-state used to build "an arbitrary state in which transport id
`tid` is absent": every such state is a fixed point of this map. -/
def withoutTransport (tid : String) (s : ServerState) : ServerState :=
  { s with transports := s.transports.filter (fun t => t.tid != tid) }

/-- `transports.set(transport.id, transport)` — the registration performed
once the awaited `router.createWebRtcTransport()` has resolved.  The code
consults nothing about the requesting socket (in particular not whether it
is still connected) before storing the new transport. -/
def registerTransport (s : ServerState) (t : Transport) : ServerState :=
  { s with transports := s.transports ++ [t] }

/-- `socket.on('createWebRtcTransport')`: awaits the engine; on success the
transport is stored and its params acknowledged, on failure the error is
caught and acknowledged as `{ error: message }`. -/
def createWebRtcTransportHandler (s : ServerState) (eng : EngineResult Transport) :
    Ack × ServerState :=
  match eng with
  | .ok t => (Ack.okParams t.tid, registerTransport s t)
  | .fail m => (Ack.err m, s)

/-- Engine effect of a successful `transport.connect({ dtlsParameters })`:
the transport's DTLS state becomes connected. -/
def setConnected (tid : String) (ts : List Transport) : List Transport :=
  ts.map (fun t => if t.tid == tid then { t with connected := true } else t)

/-- `socket.on('connectTransport')`: looks the transport up in the global
map, throws (caught, surfaced as `{ error }`) if absent, otherwise awaits
`transport.connect`; engine failure is likewise caught and surfaced. -/
def connectTransportHandler (s : ServerState) (tid : String)
    (eng : EngineResult Unit) : Ack × ServerState :=
  match s.transports.find? (fun t => t.tid == tid) with
  | none => (Ack.err (notFoundMsg tid), s)
  | some _ =>
    match eng with
    | .ok _ => (Ack.okSuccess, { s with transports := setConnected tid s.transports })
    | .fail m => (Ack.err m, s)

/-- `socket.on('produce')`: looks the transport up in the global map,
throws (caught, surfaced as `{ error }`) if absent, otherwise awaits
`transport.produce`, assigns `producer.transportId = transportId`, stores
the producer and acknowledges `{ id }`.  `caller` is the requesting
socket's id; the code only logs it and checks nothing about it. -/
def produceHandler (s : ServerState) (caller : String) (tid : String)
    (eng : EngineResult String) : Ack × ServerState :=
  match s.transports.find? (fun t => t.tid == tid) with
  | none => (Ack.err (notFoundMsg tid), s)
  | some t =>
    match eng with
    | .ok newPid =>
      (Ack.okId newPid,
        { s with producers :=
            s.producers ++ [{ pid := newPid, transportId := tid, engineParent := t.tid }] })
    | .fail m => (Ack.err m, s)

/-- Inner loop of the `disconnect` handler: for every producer whose
`transportId` field equals `tid`, call `producer.close()` and delete it
from the `producers` map. -/
def closeProducersOfPass (tid : String) (s : ServerState) : ServerState :=
  { s with
    producers := s.producers.filter (fun p => p.transportId != tid),
    closedP := s.closedP ++ (s.producers.filter (fun p => p.transportId == tid)).map Producer.pid }

/-- One iteration of the outer loop of the `disconnect` handler, for the
map entry `t`: run the inner producer loop, then `transport.close()` and
`transports.delete(transportId)`. -/
def disconnectTransportStep (s : ServerState) (t : Transport) : ServerState :=
  let s1 := closeProducersOfPass t.tid s
  { s1 with
    transports := s1.transports.filter (fun u => u.tid != t.tid),
    closedT := s1.closedT ++ [t.tid] }

/-- `socket.on('disconnect')` for socket `sid`: the socket leaves the set
of live sessions, then the handler iterates over ALL entries of the global
`transports` map (which sid owns them is never consulted), closing and
deleting each one and, inside, every producer whose `transportId` matches
the entry being walked. -/
def disconnectHandler (sid : String) (s : ServerState) : ServerState :=
  s.transports.foldl disconnectTransportStep
    { s with live := s.live.filter (fun x => x != sid) }

/-- Effect of `transport.close()` on a transport currently in the map (a
no-op if the id is absent, i.e. the transport is already closed): mediasoup
emits `@close`, whose app handler deletes the entry from `transports`, and
emits `transportclose` on every producer the engine created on this
transport, whose app handler calls `producer.close()` and deletes it from
`producers`. -/
def closeTransport (tid : String) (s : ServerState) : ServerState :=
  if s.transports.any (fun t => t.tid == tid) then
    { s with
      transports := s.transports.filter (fun t => t.tid != tid),
      producers := s.producers.filter (fun p => p.engineParent != tid),
      closedT := s.closedT ++ [tid],
      closedP := s.closedP ++ (s.producers.filter (fun p => p.engineParent == tid)).map Producer.pid }
  else s

/-- `transport.on('dtlsstatechange')`: when the reported state is
`'closed'`, the handler calls `transport.close()`. -/
def dtlsStateChange (tid : String) (dtlsState : String) (s : ServerState) : ServerState :=
  if dtlsState == "closed" then closeTransport tid s else s

/-- `worker.on('died')`: schedules `process.exit(1)` in 2000 ms and does
nothing else — no recovery is attempted in any state. -/
def workerDied (s : ServerState) : ServerState :=
  { s with pendingExit := some 2000 }

/-- The timeout scheduled by the `died` handler firing: the process exits. -/
def exitTimerFires (s : ServerState) : ServerState :=
  match s.pendingExit with
  | some _ => { s with exited := true }
  | none => s

/-- Spec invariant I2: every stored Producer's owning transport id refers
to a transport currently in the store. -/
def InvI2 (s : ServerState) : Prop :=
  ∀ p ∈ s.producers, ∃ t ∈ s.transports, t.tid = p.transportId

/-- The claim C10 invariant: every stored producer's `transportId` field
equals the id of the transport on which it was actually produced. -/
def OwnerFieldInv (s : ServerState) : Prop :=
  ∀ p ∈ s.producers, p.transportId = p.engineParent

/-! ### Field computations for one `disconnect` outer-loop iteration -/

theorem step_live (s : ServerState) (t : Transport) :
    (disconnectTransportStep s t).live = s.live := rfl

theorem step_pendingExit (s : ServerState) (t : Transport) :
    (disconnectTransportStep s t).pendingExit = s.pendingExit := rfl

theorem step_exited (s : ServerState) (t : Transport) :
    (disconnectTransportStep s t).exited = s.exited := rfl

theorem step_transports (s : ServerState) (t : Transport) :
    (disconnectTransportStep s t).transports
      = s.transports.filter (fun u => u.tid != t.tid) := rfl

theorem step_producers (s : ServerState) (t : Transport) :
    (disconnectTransportStep s t).producers
      = s.producers.filter (fun p => p.transportId != t.tid) := rfl

theorem step_closedT (s : ServerState) (t : Transport) :
    (disconnectTransportStep s t).closedT = s.closedT ++ [t.tid] := rfl

theorem step_closedP (s : ServerState) (t : Transport) :
    (disconnectTransportStep s t).closedP
      = s.closedP ++ (s.producers.filter (fun p => p.transportId == t.tid)).map Producer.pid :=
  rfl

/-! ### The `disconnect` outer loop, characterised by folding over the
snapshot of the `transports` map -/

theorem foldl_step_live (l : List Transport) (acc : ServerState) :
    (l.foldl disconnectTransportStep acc).live = acc.live := by
  induction l generalizing acc with
  | nil => rfl
  | cons t ts ih => rw [List.foldl_cons, ih, step_live]

theorem foldl_step_pendingExit (l : List Transport) (acc : ServerState) :
    (l.foldl disconnectTransportStep acc).pendingExit = acc.pendingExit := by
  induction l generalizing acc with
  | nil => rfl
  | cons t ts ih => rw [List.foldl_cons, ih, step_pendingExit]

theorem foldl_step_exited (l : List Transport) (acc : ServerState) :
    (l.foldl disconnectTransportStep acc).exited = acc.exited := by
  induction l generalizing acc with
  | nil => rfl
  | cons t ts ih => rw [List.foldl_cons, ih, step_exited]

theorem foldl_step_transports (l : List Transport) (acc : ServerState) :
    (l.foldl disconnectTransportStep acc).transports
      = acc.transports.filter (fun u => l.all (fun t => u.tid != t.tid)) := by
  induction l generalizing acc with
  | nil => simp
  | cons t ts ih =>
      rw [List.foldl_cons, ih, step_transports, List.filter_filter]
      refine List.filter_congr ?_
      intro u _
      rw [List.all_cons, Bool.and_comm]

theorem foldl_step_producers (l : List Transport) (acc : ServerState) :
    (l.foldl disconnectTransportStep acc).producers
      = acc.producers.filter (fun p => l.all (fun t => p.transportId != t.tid)) := by
  induction l generalizing acc with
  | nil => simp
  | cons t ts ih =>
      rw [List.foldl_cons, ih, step_producers, List.filter_filter]
      refine List.filter_congr ?_
      intro p _
      rw [List.all_cons, Bool.and_comm]

theorem foldl_step_closedP_mono (l : List Transport) (x : String) :
    ∀ acc : ServerState, x ∈ acc.closedP →
      x ∈ (l.foldl disconnectTransportStep acc).closedP := by
  induction l with
  | nil => intro acc hx; exact hx
  | cons t ts ih =>
      intro acc hx
      rw [List.foldl_cons]
      apply ih
      rw [step_closedP]
      exact List.mem_append_left _ hx

theorem foldl_step_closedT_mono (l : List Transport) (x : String) :
    ∀ acc : ServerState, x ∈ acc.closedT →
      x ∈ (l.foldl disconnectTransportStep acc).closedT := by
  induction l with
  | nil => intro acc hx; exact hx
  | cons t ts ih =>
      intro acc hx
      rw [List.foldl_cons]
      apply ih
      rw [step_closedT]
      exact List.mem_append_left _ hx

theorem foldl_step_closedT_mem (l : List Transport) (t : Transport) :
    ∀ acc : ServerState, t ∈ l →
      t.tid ∈ (l.foldl disconnectTransportStep acc).closedT := by
  induction l with
  | nil => intro acc ht; exact absurd ht (List.not_mem_nil t)
  | cons u us ih =>
      intro acc ht
      rw [List.foldl_cons]
      rcases List.mem_cons.mp ht with rfl | h
      · apply foldl_step_closedT_mono
        rw [step_closedT]
        exact List.mem_append_right _ (List.mem_singleton.mpr rfl)
      · exact ih _ h

theorem foldl_step_closedP_mem (l : List Transport) (p : Producer) :
    ∀ acc : ServerState, p ∈ acc.producers → (∃ t ∈ l, p.transportId = t.tid) →
      p.pid ∈ (l.foldl disconnectTransportStep acc).closedP := by
  induction l with
  | nil =>
      rintro acc hp ⟨t, ht, _⟩
      exact absurd ht (List.not_mem_nil t)
  | cons t ts ih =>
      rintro acc hp ⟨t', ht', heq⟩
      rw [List.foldl_cons]
      by_cases hcase : p.transportId = t.tid
      · apply foldl_step_closedP_mono
        rw [step_closedP]
        apply List.mem_append_right
        apply List.mem_map_of_mem
        rw [List.mem_filter]
        exact ⟨hp, by simp [hcase]⟩
      · refine ih _ ?_ ?_
        · rw [step_producers, List.mem_filter]
          exact ⟨hp, by simp [hcase]⟩
        · rcases List.mem_cons.mp ht' with rfl | h
          · exact absurd heq hcase
          · exact ⟨t', h, heq⟩

/-! ### Direct consequences for the `disconnect` handler -/

theorem disconnect_transports_nil (sid : String) (s : ServerState) :
    (disconnectHandler sid s).transports = [] := by
  rw [disconnectHandler, foldl_step_transports]
  rw [List.filter_eq_nil_iff]
  intro u hu
  simp only [List.all_eq_true]
  intro hall
  have := hall u hu
  simp at this

theorem disconnect_live (sid : String) (s : ServerState) :
    (disconnectHandler sid s).live = s.live.filter (fun x => x != sid) := by
  rw [disconnectHandler, foldl_step_live]

/-- `transport.close()` on a transport that is no longer in the map is a
no-op. -/
theorem closeTransport_of_absent (tid : String) (s : ServerState)
    (h : s.transports.any (fun t => t.tid == tid) = false) :
    closeTransport tid s = s := by
  simp only [closeTransport, h]
  simp

/-- After `transport.close()`, the closed id is no longer in the map. -/
theorem closeTransport_removes (tid : String) (s : ServerState)
    (h : s.transports.any (fun t => t.tid == tid) = true) :
    (closeTransport tid s).transports.any (fun t => t.tid == tid) = false := by
  simp only [closeTransport, h, if_true]
  rw [List.any_eq_false]
  intro t ht
  rw [List.mem_filter] at ht
  have hne := ht.2
  rw [bne_iff_ne] at hne
  simp [hne]

/-! ### Concrete scenario states -/

/-- Two-session scenario: socket "A" owns transport "t1"; socket "B" owns
transport "t2", which carries producer "p2". -/
def sampleTwoSessions : ServerState :=
  { live := ["A", "B"]
  , transports := [⟨"t1", "A", true⟩, ⟨"t2", "B", true⟩]
  , producers := [⟨"p2", "t2", "t2"⟩]
  , closedT := []
  , closedP := []
  , pendingExit := none
  , exited := false }

/-- Single-session scenario with no resources yet: socket "A" has a
`createWebRtcTransport` request in flight. -/
def samplePendingCreate : ServerState :=
  { live := ["A"]
  , transports := []
  , producers := []
  , closedT := []
  , closedP := []
  , pendingExit := none
  , exited := false }

/-! ### The claims -/

/-- Claim C1 — refuted by the code (recorded as a code bug): in the
two-session state, running the `disconnect` teardown for socket "A" calls
`close()` on socket "B"'s transport "t2" and producer "p2" and removes
both from the store, although their owner is "B" ≠ "A".  The handler
iterates the whole global `transports` map and never consults ownership. -/
theorem c1_disconnect_closes_other_sessions_resources :
    (Transport.mk "t2" "B" true).owner ≠ "A" ∧
    "t2" ∈ (disconnectHandler "A" sampleTwoSessions).closedT ∧
    Transport.mk "t2" "B" true ∉ (disconnectHandler "A" sampleTwoSessions).transports ∧
    "p2" ∈ (disconnectHandler "A" sampleTwoSessions).closedP ∧
    Producer.mk "p2" "t2" "t2" ∉ (disconnectHandler "A" sampleTwoSessions).producers := by
  decide

/-- Claim C2: for every state of the global maps and any disconnecting
socket, the `disconnect` handler leaves the `transports` map empty, has
called `close()` on every stored transport, and has closed and removed
every producer whose `transportId` matched a stored transport — one
client's disconnect tears down all clients' resources, not only its own. -/
theorem c2_disconnect_tears_down_everything (sid : String) (s : ServerState) :
    (disconnectHandler sid s).transports = [] ∧
    (∀ t ∈ s.transports, t.tid ∈ (disconnectHandler sid s).closedT) ∧
    ∀ p ∈ s.producers, (∃ t ∈ s.transports, p.transportId = t.tid) →
      p.pid ∈ (disconnectHandler sid s).closedP ∧
      p ∉ (disconnectHandler sid s).producers := by
  refine ⟨disconnect_transports_nil sid s, ?_, ?_⟩
  · intro t ht
    rw [disconnectHandler]
    exact foldl_step_closedT_mem _ t _ ht
  · intro p hp hmatch
    constructor
    · rw [disconnectHandler]
      exact foldl_step_closedP_mem _ p _ hp hmatch
    · rw [disconnectHandler, foldl_step_producers]
      intro hmem
      rw [List.mem_filter] at hmem
      rcases hmatch with ⟨t, ht, heq⟩
      have hall := List.all_eq_true.mp hmem.2 t ht
      simp [heq] at hall

/-- Witness for C2: in the two-session state, producer "p2" (whose
`transportId` "t2" matches a stored transport) is closed by socket "A"'s
disconnect. -/
theorem c2_disconnect_tears_down_everything_witness :
    "p2" ∈ (disconnectHandler "A" sampleTwoSessions).closedP :=
  ((c2_disconnect_tears_down_everything "A" sampleTwoSessions).2.2
    ⟨"p2", "t2", "t2"⟩ (by decide) ⟨⟨"t2", "B", true⟩, by decide, by decide⟩).1

/-- Claim C3 — refuted by the code (recorded as a code bug): socket "A"
disconnects while its `createWebRtcTransport` request is still pending;
when the engine call then resolves with transport "t9", the handler
acknowledges success, registers "t9" in the store and never closes it,
although "A" is no longer live — no re-validation happens after the
suspension point. -/
theorem c3_no_revalidation_after_await :
    "A" ∉ (disconnectHandler "A" samplePendingCreate).live ∧
    (createWebRtcTransportHandler (disconnectHandler "A" samplePendingCreate)
        (EngineResult.ok ⟨"t9", "A", false⟩)).fst = Ack.okParams "t9" ∧
    Transport.mk "t9" "A" false ∈
      (createWebRtcTransportHandler (disconnectHandler "A" samplePendingCreate)
        (EngineResult.ok ⟨"t9", "A", false⟩)).snd.transports ∧
    "t9" ∉ (createWebRtcTransportHandler (disconnectHandler "A" samplePendingCreate)
        (EngineResult.ok ⟨"t9", "A", false⟩)).snd.closedT := by
  decide

/-- Claim C7: closure is idempotent: running the `disconnect` teardown a
second time for the same socket leaves the state exactly as after the
first run (no error, no duplicate `close()` calls), and `transport.close()`
on an already-closed transport is a no-op. -/
theorem c7_teardown_idempotent (sid tid : String) (s : ServerState) :
    disconnectHandler sid (disconnectHandler sid s) = disconnectHandler sid s ∧
    closeTransport tid (closeTransport tid s) = closeTransport tid s := by
  constructor
  · conv_lhs => rw [disconnectHandler]
    rw [disconnect_transports_nil, List.foldl_nil]
    have hl : (disconnectHandler sid s).live.filter (fun x => x != sid)
        = (disconnectHandler sid s).live := by
      rw [disconnect_live, List.filter_filter]
      refine List.filter_congr ?_
      intro x _
      rw [Bool.and_self]
    rw [hl, ← disconnect_transports_nil sid s]
  · by_cases h : s.transports.any (fun t => t.tid == tid) = true
    · exact closeTransport_of_absent tid _ (closeTransport_removes tid s h)
    · rw [Bool.not_eq_true] at h
      rw [closeTransport_of_absent tid s h, closeTransport_of_absent tid s h]

/-- Claim C4: for every transport id absent from the store, both
`connectTransport` and `produce` acknowledge with the NotFound error
payload, and neither mutates any state — in particular `produce` adds
nothing to and removes nothing from the `transports` or `producers` map. -/
theorem c4_unknown_transport_is_not_found (s : ServerState) (tid caller : String)
    (engC : EngineResult Unit) (engP : EngineResult String)
    (h : s.transports.find? (fun t => t.tid == tid) = none) :
    connectTransportHandler s tid engC = (Ack.err (notFoundMsg tid), s) ∧
    produceHandler s caller tid engP = (Ack.err (notFoundMsg tid), s) := by
  constructor
  · simp [connectTransportHandler, h]
  · simp [produceHandler, h]

/-- Witness for C4: id "tX" is absent from the empty store, and
`connectTransport` for it acknowledges the NotFound error and leaves the
state untouched. -/
theorem c4_unknown_transport_is_not_found_witness :
    connectTransportHandler samplePendingCreate "tX" (EngineResult.ok ()) =
      (Ack.err (notFoundMsg "tX"), samplePendingCreate) :=
  (c4_unknown_transport_is_not_found samplePendingCreate "tX" "A"
    (EngineResult.ok ()) (EngineResult.ok "p") (by decide)).1

/-- Single-transport scenario: socket "A" owns transport "t1", which has
never been connected. -/
def sampleUnconnected : ServerState :=
  { live := ["A", "B"]
  , transports := [⟨"t1", "A", false⟩]
  , producers := []
  , closedT := []
  , closedP := []
  , pendingExit := none
  , exited := false }

/-- Counterexample to claim C5 as stated: socket "B" issues `produce` on
transport "t1", which belongs to socket "A" and is not connected, and the
handler nevertheless acknowledges the fresh producer id — the code checks
only that the transport id is in the map. -/
theorem c5_counterexample_no_ownership_check :
    (Transport.mk "t1" "A" false).owner ≠ "B" ∧
    (Transport.mk "t1" "A" false).connected = false ∧
    Transport.mk "t1" "A" false ∈ sampleUnconnected.transports ∧
    (produceHandler sampleUnconnected "B" "t1" (EngineResult.ok "p9")).fst
      = Ack.okId "p9" := by
  decide

/-- Claim C5 amended: `produce` acknowledges a fresh producer id exactly
when the named transport id is present in the store and the engine call
succeeds; the caller's identity (hence ownership) and the transport's
connection state are never consulted. -/
theorem c5_produce_checks_only_existence (s : ServerState)
    (caller callerB tid pid : String) (engP : EngineResult String) :
    ((produceHandler s caller tid (EngineResult.ok pid)).fst = Ack.okId pid
      ↔ s.transports.any (fun t => t.tid == tid) = true) ∧
    produceHandler s caller tid engP = produceHandler s callerB tid engP := by
  refine ⟨?_, rfl⟩
  cases hfind : s.transports.find? (fun t => t.tid == tid) with
  | none =>
      simp only [produceHandler, hfind]
      constructor
      · intro hne
        exact Ack.noConfusion hne
      · intro hany
        rcases List.any_eq_true.mp hany with ⟨t, ht, hp⟩
        exact absurd hp (List.find?_eq_none.mp hfind t ht)
  | some t =>
      simp only [produceHandler, hfind]
      constructor
      · intro _
        refine List.any_eq_true.mpr ?_
        have hsome : (s.transports.find? (fun u => u.tid == tid)).isSome = true := by
          rw [hfind]
          rfl
        exact List.find?_isSome.mp hsome
      · intro _
        trivial

/-- Claim C6: when a transport reports closed — in particular on the
engine-driven `dtlsstatechange` to `'closed'` — it is removed from the
store and each of its producers is closed and removed, and invariant I2
(every stored producer's owning transport id refers to a stored
transport) is preserved. -/
theorem c6_transport_close_cascades (tid : String) (s : ServerState)
    (hI2 : InvI2 s) (hOwn : OwnerFieldInv s) :
    dtlsStateChange tid "closed" s = closeTransport tid s ∧
    (closeTransport tid s).transports.all (fun t => t.tid != tid) = true ∧
    (∀ p ∈ s.producers, p.engineParent = tid →
      p.pid ∈ (closeTransport tid s).closedP ∧ p ∉ (closeTransport tid s).producers) ∧
    InvI2 (closeTransport tid s) := by
  have hdtls : dtlsStateChange tid "closed" s = closeTransport tid s := by
    simp [dtlsStateChange]
  by_cases h : s.transports.any (fun t => t.tid == tid) = true
  · refine ⟨hdtls, ?_, ?_, ?_⟩
    · simp only [closeTransport, h, if_true]
      rw [List.all_eq_true]
      intro t ht
      rw [List.mem_filter] at ht
      exact ht.2
    · intro p hp hpar
      simp only [closeTransport, h, if_true]
      constructor
      · apply List.mem_append_right
        apply List.mem_map_of_mem
        rw [List.mem_filter]
        exact ⟨hp, by simp [hpar]⟩
      · intro hmem
        rw [List.mem_filter] at hmem
        have hne := hmem.2
        rw [bne_iff_ne] at hne
        exact hne hpar
    · intro p hp
      simp only [closeTransport, h, if_true] at hp ⊢
      rw [List.mem_filter] at hp
      rcases hI2 p hp.1 with ⟨t, ht, hteq⟩
      refine ⟨t, ?_, hteq⟩
      rw [List.mem_filter]
      refine ⟨ht, ?_⟩
      have hpar := hp.2
      rw [bne_iff_ne] at hpar
      have hfield := hOwn p hp.1
      rw [bne_iff_ne]
      intro hcontra
      apply hpar
      rw [← hfield, ← hteq, hcontra]
  · rw [Bool.not_eq_true] at h
    have hid : closeTransport tid s = s := closeTransport_of_absent tid s h
    refine ⟨hdtls, ?_, ?_, ?_⟩
    · rw [hid, List.all_eq_true]
      intro t ht
      have hne := List.any_eq_false.mp h t ht
      rw [bne_iff_ne]
      intro hcontra
      exact hne (by simp [hcontra])
    · intro p hp hpar
      exfalso
      rcases hI2 p hp with ⟨t, ht, hteq⟩
      have hfield := hOwn p hp
      exact List.any_eq_false.mp h t ht (by simp [hteq, hfield, hpar])
    · rw [hid]
      exact hI2

/-- Witness for C6: the two-session state satisfies I2 and the field
invariant, and closing transport "t2" closes its producer "p2". -/
theorem c6_transport_close_cascades_witness :
    "p2" ∈ (closeTransport "t2" sampleTwoSessions).closedP :=
  ((c6_transport_close_cascades "t2" sampleTwoSessions
      (by unfold InvI2; decide) (by unfold OwnerFieldInv; decide)).2.2.1
    ⟨"p2", "t2", "t2"⟩ (by decide) (by decide)).1

/-- A state built by `withoutTransport tid` never finds `tid`. -/
theorem find?_withoutTransport (tid : String) (s : ServerState) :
    (withoutTransport tid s).transports.find? (fun t => t.tid == tid) = none := by
  rw [List.find?_eq_none]
  intro t ht
  simp only [withoutTransport] at ht
  rw [List.mem_filter] at ht
  have hne := ht.2
  rw [bne_iff_ne] at hne
  simp [hne]

theorem create_no_exit (s : ServerState) (eng : EngineResult Transport) :
    (createWebRtcTransportHandler s eng).snd.pendingExit = s.pendingExit ∧
    (createWebRtcTransportHandler s eng).snd.exited = s.exited := by
  cases eng <;> simp [createWebRtcTransportHandler, registerTransport]

theorem connect_no_exit (s : ServerState) (tid : String) (eng : EngineResult Unit) :
    (connectTransportHandler s tid eng).snd.pendingExit = s.pendingExit ∧
    (connectTransportHandler s tid eng).snd.exited = s.exited := by
  cases hfind : s.transports.find? (fun t => t.tid == tid) <;>
    cases eng <;> simp [connectTransportHandler, hfind]

theorem produce_no_exit (s : ServerState) (caller tid : String)
    (eng : EngineResult String) :
    (produceHandler s caller tid eng).snd.pendingExit = s.pendingExit ∧
    (produceHandler s caller tid eng).snd.exited = s.exited := by
  cases hfind : s.transports.find? (fun t => t.tid == tid) <;>
    cases eng <;> simp [produceHandler, hfind]

/-- Claim C8: every recoverable error raised while handling
`createWebRtcTransport`, `connectTransport` or `produce` — an engine
failure or an unknown transport id — is caught inside that handler and
surfaced to the caller as an `{ error }` acknowledgement with the server
state unchanged; and no outcome of any of these handlers ever schedules a
process exit or exits, so neither the connection state nor the process is
terminated by a request error. -/
theorem c8_recoverable_errors_surfaced (s : ServerState) (tid caller m : String)
    (engC : EngineResult Unit) (engP : EngineResult String)
    (engT : EngineResult Transport) :
    createWebRtcTransportHandler s (EngineResult.fail m) = (Ack.err m, s) ∧
    ((connectTransportHandler s tid (EngineResult.fail m)).fst = Ack.err m ∨
      (connectTransportHandler s tid (EngineResult.fail m)).fst
        = Ack.err (notFoundMsg tid)) ∧
    (connectTransportHandler s tid (EngineResult.fail m)).snd = s ∧
    ((produceHandler s caller tid (EngineResult.fail m)).fst = Ack.err m ∨
      (produceHandler s caller tid (EngineResult.fail m)).fst
        = Ack.err (notFoundMsg tid)) ∧
    (produceHandler s caller tid (EngineResult.fail m)).snd = s ∧
    connectTransportHandler (withoutTransport tid s) tid engC
      = (Ack.err (notFoundMsg tid), withoutTransport tid s) ∧
    (createWebRtcTransportHandler s engT).snd.pendingExit = s.pendingExit ∧
    (createWebRtcTransportHandler s engT).snd.exited = s.exited ∧
    (connectTransportHandler s tid engC).snd.pendingExit = s.pendingExit ∧
    (connectTransportHandler s tid engC).snd.exited = s.exited ∧
    (produceHandler s caller tid engP).snd.pendingExit = s.pendingExit ∧
    (produceHandler s caller tid engP).snd.exited = s.exited := by
  refine ⟨rfl, ?_, ?_, ?_, ?_, ?_, (create_no_exit s engT).1, (create_no_exit s engT).2,
    (connect_no_exit s tid engC).1, (connect_no_exit s tid engC).2,
    (produce_no_exit s caller tid engP).1, (produce_no_exit s caller tid engP).2⟩
  · cases hfind : s.transports.find? (fun t => t.tid == tid) with
    | none => right; simp [connectTransportHandler, hfind]
    | some t => left; simp [connectTransportHandler, hfind]
  · cases hfind : s.transports.find? (fun t => t.tid == tid) <;>
      simp [connectTransportHandler, hfind]
  · cases hfind : s.transports.find? (fun t => t.tid == tid) with
    | none => right; simp [produceHandler, hfind]
    | some t => left; simp [produceHandler, hfind]
  · cases hfind : s.transports.find? (fun t => t.tid == tid) <;>
      simp [produceHandler, hfind]
  · simp [connectTransportHandler, find?_withoutTransport]

/-- Claim C9: whatever state the process is in when the mediasoup worker
dies, the `died` handler schedules process exit with a 2000 ms grace
period and touches nothing else — no recovery is attempted — and when
the scheduled timer fires the process has exited. -/
theorem c9_worker_death_is_fatal (s : ServerState) :
    workerDied s = { s with pendingExit := some 2000 } ∧
    (workerDied s).transports = s.transports ∧
    (workerDied s).producers = s.producers ∧
    (workerDied s).live = s.live ∧
    (exitTimerFires (workerDied s)).exited = true := by
  exact ⟨rfl, rfl, rfl, rfl, rfl⟩

/-- Claim C10: `produce` assigns the `transportId` field from the id of
the transport it produced on before inserting the producer into the map
(every producer present after `produce` either was already stored or
carries the requested id in both fields), and the invariant that every
stored producer's `transportId` equals the id of its producing transport
is preserved by every operation of the server. -/
theorem c10_transportId_matches_producing_transport (s : ServerState)
    (sid tid caller dtlsState : String)
    (engC : EngineResult Unit) (engP : EngineResult String)
    (engT : EngineResult Transport)
    (h : OwnerFieldInv s) :
    OwnerFieldInv (produceHandler s caller tid engP).snd ∧
    (∀ p ∈ (produceHandler s caller tid engP).snd.producers,
      p ∈ s.producers ∨ (p.transportId = tid ∧ p.transportId = p.engineParent)) ∧
    OwnerFieldInv (connectTransportHandler s tid engC).snd ∧
    OwnerFieldInv (createWebRtcTransportHandler s engT).snd ∧
    OwnerFieldInv (disconnectHandler sid s) ∧
    OwnerFieldInv (closeTransport tid s) ∧
    OwnerFieldInv (dtlsStateChange tid dtlsState s) ∧
    OwnerFieldInv (workerDied s) := by
  have hproduce : ∀ p ∈ (produceHandler s caller tid engP).snd.producers,
      p ∈ s.producers ∨ (p.transportId = tid ∧ p.transportId = p.engineParent) := by
    intro p hp
    cases hfind : s.transports.find? (fun t => t.tid == tid) with
    | none =>
        simp only [produceHandler, hfind] at hp
        exact Or.inl hp
    | some t =>
        cases engP with
        | fail m =>
            simp only [produceHandler, hfind] at hp
            exact Or.inl hp
        | ok newPid =>
            simp only [produceHandler, hfind] at hp
            rcases List.mem_append.mp hp with hmem | hnew
            · exact Or.inl hmem
            · right
              have httid : t.tid = tid := by
                have := List.find?_some hfind
                rwa [beq_iff_eq] at this
              rw [List.mem_singleton] at hnew
              subst hnew
              exact ⟨rfl, httid.symm⟩
  have hclose : OwnerFieldInv (closeTransport tid s) := by
    intro p hp
    by_cases hc : s.transports.any (fun t => t.tid == tid) = true
    · simp only [closeTransport, hc, if_true] at hp
      rw [List.mem_filter] at hp
      exact h p hp.1
    · rw [Bool.not_eq_true] at hc
      rw [closeTransport_of_absent tid s hc] at hp
      exact h p hp
  refine ⟨?_, hproduce, ?_, ?_, ?_, hclose, ?_, h⟩
  · intro p hp
    rcases hproduce p hp with hmem | ⟨_, hfield⟩
    · exact h p hmem
    · exact hfield
  · intro p hp
    cases hfind : s.transports.find? (fun t => t.tid == tid) <;>
      cases engC <;> simp only [connectTransportHandler, hfind] at hp <;> exact h p hp
  · intro p hp
    cases engT <;> simp only [createWebRtcTransportHandler, registerTransport] at hp <;>
      exact h p hp
  · intro p hp
    rw [disconnectHandler, foldl_step_producers, List.mem_filter] at hp
    exact h p hp.1
  · intro p hp
    by_cases hd : (dtlsState == "closed") = true
    · simp only [dtlsStateChange, hd, if_true] at hp
      exact hclose p hp
    · rw [Bool.not_eq_true] at hd
      simp only [dtlsStateChange, hd] at hp
      simp at hp
      exact h p hp

/-- Witness for C10: the two-session state satisfies the field invariant,
and it is preserved when `produce` adds producer "p7" on transport "t1". -/
theorem c10_transportId_matches_producing_transport_witness :
    OwnerFieldInv (produceHandler sampleTwoSessions "A" "t1" (EngineResult.ok "p7")).snd :=
  (c10_transportId_matches_producing_transport sampleTwoSessions "A" "t1" "A" "closed"
    (EngineResult.ok ()) (EngineResult.ok "p7") (EngineResult.ok ⟨"t3", "A", false⟩)
    (by unfold OwnerFieldInv; decide)).1

end LiveStreamServer
